import Mathlib

/- Shallow embedding of src/server.py (Calendar_AI).

   External collaborators are modelled as explicit parameters, following
   the spec, which treats them as outside the core:
   - dateutil parsing and tzlocal zone resolution become an Env of
     parsing/formatting oracles whose timestamps are zone-resolved
     instants represented as integers (seconds); under this model the
     tz-injection lines (server.py 202-205) are the identity, since the
     oracle already yields the resolved instant;
   - the Google Calendar store becomes a Store function giving the result
     of the events list query, keyed by the queried instant interval
     (the info content of the timeMin/timeMax isoformat strings), and an
     Insert function giving the result of the insert call;
   - the speech channel becomes a list of replies standing for successive
     listen() results, consumed in order; speak output and print output
     are accumulated in result records; prompts counts listen() calls. -/

/-- Test whether the first character list is a leading segment of the second. -/
def chPre : List Char → List Char → Bool
  | [], _ => true
  | _ :: _, [] => false
  | a :: as, b :: bs => a == b && chPre as bs

/-- Test whether needle occurs contiguously somewhere in hay. -/
def chSub (needle : List Char) : List Char → Bool
  | [] => chPre needle []
  | c :: t => chPre needle (c :: t) || chSub needle t

/-- Python substring containment, needle in hay (server.py line 249). -/
def strContains (hay needle : String) : Bool := chSub needle.data hay.data

/-- Python str.lower(), character-wise; agrees with CPython on the ASCII
    vocabulary the code compares against. -/
def strLower (s : String) : String := String.mk (s.data.map Char.toLower)

/-- Oracles for the external dateutil / strftime collaborators.
    parse s is parser.parse(s) resolved to a local-zone instant (none on
    exception); parseDefault s d is parser.parse(s, default=d); fmt is
    strftime of the ISO pattern used at lines 157, 161, 259. -/
structure Env where
  parse : String → Option Int
  parseDefault : String → Int → Option Int
  fmt : Int → String
  fmtRange : String → String → String

/-- Raw start/end object of a store event: a dict with optional dateTime
    and date keys (server.py lines 239-240). -/
structure RawTime where
  dateTime : Option String
  date : Option String
deriving DecidableEq

/-- Raw event returned by the store list query. -/
structure RawEvent where
  summary : Option String
  start : RawTime
  endT : RawTime
deriving DecidableEq

/-- Result of the store list query on a queried instant interval. -/
abbrev Store := Int → Int → Except String (List RawEvent)

/-- Python event['start'].get('dateTime', event['start'].get('date', '')). -/
def rawTimeStr (t : RawTime) : String := t.dateTime.getD (t.date.getD "")

/-- Display helper format_event_time_range (server.py lines 181-194):
    pure string formatting over dateutil/strftime, abstracted as the
    fmtRange oracle of the environment. -/
def format_event_time_range (env : Env) (s e : String) : String := env.fmtRange s e

/-- Ordering guard of server.py lines 208-209: if end <= start, end is
    forced to start + 1 hour (3600 seconds). -/
def ensureOrdered (s e : Int) : Int × Int :=
  if e ≤ s then (s, s + 3600) else (s, e)

/-- Observable outcome of one check_for_conflicts call: speak lines,
    print lines, number of listen() calls, the returned triple, and the
    instant interval passed to the store list query (none if the query
    was never issued). -/
structure CheckResult where
  spoken : List String
  printed : List String
  prompts : Nat
  startOut : Option String
  endOut : Option String
  hadConflict : Bool
  queried : Option (Int × Int)
deriving DecidableEq

/-- check_for_conflicts (server.py lines 172-271).  start_datetime and
    end_datetime are Option String because Python may pass None here
    (parser.parse(None) raises, landing in the handler at line 214). -/
def check_for_conflicts (env : Env) (store : Store)
    (start_datetime end_datetime : Option String) (replies : List String) : CheckResult :=
  match start_datetime.bind env.parse, end_datetime.bind env.parse with
  | some start, some end0 =>
    let se := ensureOrdered start end0
    match store se.1 se.2 with
    | Except.ok events =>
      if events.isEmpty then
        { spoken := [], printed := [], prompts := 0, startOut := start_datetime,
          endOut := end_datetime, hadConflict := false, queried := some se }
      else
        let msgs := events.map (fun ev =>
          (ev.summary.getD "Untitled Event") ++ " on " ++
            format_event_time_range env (rawTimeStr ev.start) (rawTimeStr ev.endT))
        let spoken0 := "You already have the following event scheduled:" :: msgs
            ++ ["Would you like to reschedule your new event?"]
        let response := strLower (replies.getD 0 "")
        if strContains response "reschedule" || strContains response "change"
            || strContains response "yes" then
          let spoken1 := spoken0 ++ ["What time would you like to move it to?"]
          match env.parseDefault (replies.getD 1 "") start with
          | none =>
            { spoken := spoken1 ++ ["I didn\x27t understand that time. Keeping original time."],
              printed := [], prompts := 2, startOut := start_datetime,
              endOut := end_datetime, hadConflict := true, queried := some se }
          | some new_start =>
            { spoken := spoken1, printed := [], prompts := 2,
              startOut := some (env.fmt new_start),
              endOut := some (env.fmt (new_start + 3600)),
              hadConflict := true, queried := some se }
        else
          { spoken := spoken0 ++ ["Okay, keeping the original time."], printed := [],
            prompts := 1, startOut := start_datetime, endOut := end_datetime,
            hadConflict := true, queried := some se }
    | Except.error e =>
      { spoken := ["Sorry, there was a problem checking your calendar."],
        printed := ["⚠️ Error while checking for conflicts: " ++ e], prompts := 0,
        startOut := start_datetime, endOut := end_datetime, hadConflict := false,
        queried := some se }
  | _, _ =>
    { spoken := ["Sorry, I couldn’t understand the time you gave me."],
      printed := ["⚠️ Couldn\x27t parse datetimes"], prompts := 0,
      startOut := start_datetime, endOut := end_datetime, hadConflict := false,
      queried := none }

/-- Return value plus speak/print output of parse_natural_time. -/
structure ParsedTime where
  value : Option String
  spoken : List String
  printed : List String
deriving DecidableEq

/-- parse_natural_time (server.py lines 150-161).  Empty text is falsy in
    Python, so the function returns None for it; otherwise it parses with
    default=base_time and falls back to the formatted base_time itself on
    a parse exception, speaking a warning.  Callers in fill_missing_fields
    always pass base_time = now explicitly. -/
def parse_natural_time (env : Env) (text : String) (base_time : Int) : ParsedTime :=
  if text = "" then { value := none, spoken := [], printed := [] }
  else
    match env.parseDefault text base_time with
    | some dt => { value := some (env.fmt dt), spoken := [], printed := [] }
    | none =>
      { value := some (env.fmt base_time),
        spoken := ["⚠️ Couldn\x27t parse time \x27" ++ text ++ "\x27"],
        printed := ["Error"] }

/-- EventDraft: the event dict flowing through fill_missing_fields.
    none models a missing key or Python None; some "" models a present but
    empty string (both are falsy for the event.get tests). -/
structure Draft where
  title : Option String
  start : Option String
  endT : Option String
  location : Option String
deriving DecidableEq

/-- Python truthiness test for event.get(field): missing, None, or "". -/
def falsy : Option String → Bool
  | none => true
  | some s => s = ""

/-- Cancellation vocabulary test of server.py lines 108, 117, 126, 135:
    reply.lower() in ["cancel", "nevermind"]. -/
def cancelWord (s : String) : Bool :=
  strLower s = "cancel" || strLower s = "nevermind"

/-- The four field prompts, in source order. -/
def titleQ : String := "What should I call this event?"

/-- Prompt for the start field. -/
def startQ : String := "When does it start?"

/-- Prompt for the end field. -/
def endQ : String := "When does it end?"

/-- Prompt for the location field. -/
def locQ : String := "Where is it happening?"

/-- Outcome of fill_missing_fields: either the dialogue was cancelled
    (Python returns None, the draft is discarded), recording the prompts
    that had been issued, or it completed with the final draft, the
    prompts issued for fields, and the number of listen() calls made by
    the embedded conflict check. -/
inductive FillOut where
  | cancelled (asked : List String) : FillOut
  | done (ev : Draft) (asked : List String) (checkPrompts : Nat) : FillOut
deriving DecidableEq

/-- Final stage of fill_missing_fields (server.py lines 140-147): run
    check_for_conflicts on the drafted times and overwrite both fields
    with the returned interval. -/
def fillFinish (env : Env) (store : Store) (ev : Draft) (replies : List String)
    (asked : List String) : FillOut :=
  let cr := check_for_conflicts env store ev.start ev.endT replies
  FillOut.done { ev with start := cr.startOut, endT := cr.endOut } asked cr.prompts

/-- Location block of fill_missing_fields (server.py lines 132-138). -/
def fillLoc (env : Env) (store : Store) (ev : Draft) (replies : List String)
    (asked : List String) : FillOut :=
  if falsy ev.location then
    let r := replies.getD 0 ""
    if cancelWord r then FillOut.cancelled (asked ++ [locQ])
    else fillFinish env store { ev with location := some r } replies.tail (asked ++ [locQ])
  else fillFinish env store ev replies asked

/-- End-time block of fill_missing_fields (server.py lines 123-129). -/
def fillEnd (env : Env) (store : Store) (now : Int) (ev : Draft) (replies : List String)
    (asked : List String) : FillOut :=
  if falsy ev.endT then
    let r := replies.getD 0 ""
    if cancelWord r then FillOut.cancelled (asked ++ [endQ])
    else fillLoc env store { ev with endT := (parse_natural_time env r now).value }
      replies.tail (asked ++ [endQ])
  else fillLoc env store ev replies asked

/-- Start-time block of fill_missing_fields (server.py lines 114-120). -/
def fillStart (env : Env) (store : Store) (now : Int) (ev : Draft) (replies : List String)
    (asked : List String) : FillOut :=
  if falsy ev.start then
    let r := replies.getD 0 ""
    if cancelWord r then FillOut.cancelled (asked ++ [startQ])
    else fillEnd env store now { ev with start := (parse_natural_time env r now).value }
      replies.tail (asked ++ [startQ])
  else fillEnd env store now ev replies asked

/-- Title block of fill_missing_fields (server.py lines 104-111). -/
def fillTitle (env : Env) (store : Store) (now : Int) (ev : Draft) (replies : List String)
    (asked : List String) : FillOut :=
  if falsy ev.title then
    let r := replies.getD 0 ""
    if cancelWord r then FillOut.cancelled (asked ++ [titleQ])
    else fillStart env store now { ev with title := some r } replies.tail (asked ++ [titleQ])
  else fillStart env store now ev replies asked

/-- fill_missing_fields (server.py lines 100-147), as the chain of the
    four field blocks followed by the conflict check.  now is the
    datetime.now() captured at entry (line 102). -/
def fill_missing_fields (env : Env) (store : Store) (now : Int) (event : Draft)
    (replies : List String) : FillOut :=
  fillTitle env store now event replies []

/-- The calendar event body built at server.py lines 285-290. -/
structure CalEvent where
  summary : String
  location : String
  startDT : Option String
  endDT : Option String
  tz : String
deriving DecidableEq

/-- Result of the store insert call: ok with the store-assigned id, or an
    error with the underlying cause. -/
abbrev InsertFn := CalEvent → Except String String

/-- Observable outcome of add_event_to_calendar: speak/print output, the
    body passed to insert (none if no insert was attempted), the number
    of insert attempts, and the Python return value. -/
structure AddResult where
  spoken : List String
  printed : List String
  inserted : Option CalEvent
  attempts : Nat
  value : Option String
deriving DecidableEq

/-- add_event_to_calendar (server.py lines 274-297).  tzName models
    tzlocal.get_localzone_name(), none meaning the call raised (fallback
    "UTC", lines 280-283).  The Python function has no return statement
    carrying a value, so value is none in every branch. -/
def add_event_to_calendar (env : Env) (store : Store) (ins : InsertFn)
    (tzName : Option String) (title start_datetime end_datetime : Option String)
    (location : String) (replies : List String) : AddResult :=
  if title = none ∨ start_datetime = none ∨ end_datetime = none then
    { spoken := ["Event creation cancelled."], printed := [], inserted := none,
      attempts := 0, value := none }
  else
    let cr := check_for_conflicts env store start_datetime end_datetime replies
    let tz := tzName.getD "UTC"
    let event : CalEvent :=
      { summary := title.getD "", location := location,
        startDT := cr.startOut, endDT := cr.endOut, tz := tz }
    match ins event with
    | Except.ok _ =>
      { spoken := cr.spoken ++
          ["Your event \x27" ++ title.getD "" ++ "\x27 has been added to the calendar."],
        printed := cr.printed, inserted := some event, attempts := 1, value := none }
    | Except.error e =>
      { spoken := cr.spoken ++ ["There was a problem adding your event."],
        printed := cr.printed ++ ["⚠️ Failed to add event: " ++ e],
        inserted := some event, attempts := 1, value := none }

/-- Concrete oracle environment used by witnesses and counterexamples:
    parses the three fixed timestamp strings used in the scenarios, parses
    "300" as a replacement time, and formats instants as ts followed by
    the number. -/
def envW : Env :=
  { parse := fun s =>
      if s = "100" then some 100 else if s = "200" then some 200
      else if s = "50" then some 50 else none,
    parseDefault := fun s _ => if s = "300" then some 300 else none,
    fmt := fun i => "ts" ++ toString i,
    fmtRange := fun a b => a ++ "-" ++ b }

/-- Store with no events in any queried interval. -/
def storeEmptyW : Store := fun _ _ => Except.ok []

/-- One existing booking, as returned by the store. -/
def rawEvW : RawEvent :=
  { summary := some "Gym", start := { dateTime := some "100", date := none },
    endT := { dateTime := some "200", date := none } }

/-- Store returning one overlapping booking for any queried interval. -/
def storeConflictW : Store := fun _ _ => Except.ok [rawEvW]

/-- Store whose list query always fails. -/
def storeErrW : Store := fun _ _ => Except.error "unreachable"

/-- Insert call that always succeeds with id123. -/
def insOkW : InsertFn := fun _ => Except.ok "id123"

/-- Insert call that always fails. -/
def insErrW : InsertFn := fun _ => Except.error "boom"

/-- Questions still to be asked from the location block on, for a given
    draft (one per falsy field, in source order). -/
def remLoc (ev : Draft) : List String := if falsy ev.location then [locQ] else []

/-- Questions still to be asked from the end block on. -/
def remEnd (ev : Draft) : List String := (if falsy ev.endT then [endQ] else []) ++ remLoc ev

/-- Questions still to be asked from the start block on. -/
def remStart (ev : Draft) : List String := (if falsy ev.start then [startQ] else []) ++ remEnd ev

/-- All questions fill_missing_fields will ask for a given draft, in
    order: one per falsy field among title, start, end, location. -/
def missingQs (ev : Draft) : List String := (if falsy ev.title then [titleQ] else []) ++ remStart ev

theorem getD_tail (l : List String) (n : Nat) (d : String) :
    l.tail.getD n d = l.getD (n + 1) d := by
  cases l <;> rfl

/-- C5: the ordering guard forces end to start + 1 hour whenever
    end <= start, returns the pair unchanged whenever start < end, and is
    idempotent on already-ordered pairs. -/
theorem ensureOrdered_spec (s e : Int) :
    (e ≤ s → ensureOrdered s e = (s, s + 3600)) ∧
    (s < e → ensureOrdered s e = (s, e)) ∧
    (s < e → ensureOrdered (ensureOrdered s e).1 (ensureOrdered s e).2 = ensureOrdered s e) := by
  refine ⟨fun h => ?_, fun h => ?_, fun h => ?_⟩
  · simp [ensureOrdered, h]
  · simp [ensureOrdered, not_le.mpr h]
  · simp [ensureOrdered, not_le.mpr h]

/-- Witness for ensureOrdered_spec at concrete inputs. -/
theorem ensureOrdered_spec_w :
    ensureOrdered 5 3 = (5, 3605) ∧ ensureOrdered 3 5 = (3, 5) :=
  ⟨(ensureOrdered_spec 5 3).1 (by decide), (ensureOrdered_spec 3 5).2.1 (by decide)⟩

/-- C1: for a parseable candidate interval and a store whose list query
    returns an empty overlap list, check_for_conflicts returns the
    original start and end strings unchanged, hadConflict = false, makes
    no listen() calls and speaks nothing. -/
theorem check_no_overlap_keeps_interval (env : Env) (store : Store)
    (sd ed : Option String) (replies : List String) (s0 e0 : Int)
    (hs : sd.bind env.parse = some s0) (he : ed.bind env.parse = some e0)
    (hstore : ∀ a b, store a b = Except.ok []) :
    check_for_conflicts env store sd ed replies =
      { spoken := [], printed := [], prompts := 0, startOut := sd, endOut := ed,
        hadConflict := false, queried := some (ensureOrdered s0 e0) } := by
  simp [check_for_conflicts, hs, he, hstore]

/-- Witness for check_no_overlap_keeps_interval at concrete inputs. -/
theorem check_no_overlap_keeps_interval_w :
    check_for_conflicts envW storeEmptyW (some "100") (some "200") ["junk"] =
      { spoken := [], printed := [], prompts := 0, startOut := some "100",
        endOut := some "200", hadConflict := false, queried := some (ensureOrdered 100 200) } :=
  check_no_overlap_keeps_interval envW storeEmptyW (some "100") (some "200") ["junk"]
    100 200 rfl rfl (fun _ _ => rfl)

/-- C7: when the store list query fails, check_for_conflicts degrades to
    the no-conflict outcome: original interval, hadConflict = false, no
    listen() calls, with only an apology spoken. -/
theorem store_error_degrades_to_no_conflict (env : Env) (store : Store)
    (sd ed : Option String) (replies : List String) (s0 e0 : Int) (msg : String)
    (hs : sd.bind env.parse = some s0) (he : ed.bind env.parse = some e0)
    (hstore : store (ensureOrdered s0 e0).1 (ensureOrdered s0 e0).2 = Except.error msg) :
    (check_for_conflicts env store sd ed replies).startOut = sd ∧
    (check_for_conflicts env store sd ed replies).endOut = ed ∧
    (check_for_conflicts env store sd ed replies).hadConflict = false ∧
    (check_for_conflicts env store sd ed replies).prompts = 0 ∧
    (check_for_conflicts env store sd ed replies).spoken =
      ["Sorry, there was a problem checking your calendar."] := by
  simp [check_for_conflicts, hs, he, hstore]

/-- Witness for store_error_degrades_to_no_conflict at concrete inputs. -/
theorem store_error_degrades_to_no_conflict_w :
    (check_for_conflicts envW storeErrW (some "100") (some "200") []).startOut = some "100" ∧
    (check_for_conflicts envW storeErrW (some "100") (some "200") []).endOut = some "200" ∧
    (check_for_conflicts envW storeErrW (some "100") (some "200") []).hadConflict = false ∧
    (check_for_conflicts envW storeErrW (some "100") (some "200") []).prompts = 0 ∧
    (check_for_conflicts envW storeErrW (some "100") (some "200") []).spoken =
      ["Sorry, there was a problem checking your calendar."] :=
  store_error_degrades_to_no_conflict envW storeErrW (some "100") (some "200") []
    100 200 "unreachable" rfl rfl rfl

/-- C2: with a non-empty overlap list, an affirmative decision reply
    (substring match on reschedule/change/yes after lowering), and a
    replacement reply that parses against the original candidate start as
    reference, check_for_conflicts returns the interval
    [new_start, new_start + 1 hour) with hadConflict = true, after two
    listen() calls. -/
theorem check_reschedule_new_interval (env : Env) (store : Store)
    (sd ed : Option String) (replies : List String) (s0 e0 ns : Int) (evs : List RawEvent)
    (hs : sd.bind env.parse = some s0) (he : ed.bind env.parse = some e0)
    (hstore : store (ensureOrdered s0 e0).1 (ensureOrdered s0 e0).2 = Except.ok evs)
    (hne : evs.isEmpty = false)
    (haff : (strContains (strLower (replies.getD 0 "")) "reschedule"
        || strContains (strLower (replies.getD 0 "")) "change"
        || strContains (strLower (replies.getD 0 "")) "yes") = true)
    (hparse : env.parseDefault (replies.getD 1 "") s0 = some ns) :
    (check_for_conflicts env store sd ed replies).startOut = some (env.fmt ns) ∧
    (check_for_conflicts env store sd ed replies).endOut = some (env.fmt (ns + 3600)) ∧
    (check_for_conflicts env store sd ed replies).hadConflict = true ∧
    (check_for_conflicts env store sd ed replies).prompts = 2 := by
  simp at haff hparse
  simp [check_for_conflicts, hs, he, hstore, hne, haff, hparse]

/-- Witness for check_reschedule_new_interval at concrete inputs. -/
theorem check_reschedule_new_interval_w :
    (check_for_conflicts envW storeConflictW (some "100") (some "200") ["yes", "300"]).startOut
      = some (envW.fmt 300) ∧
    (check_for_conflicts envW storeConflictW (some "100") (some "200") ["yes", "300"]).endOut
      = some (envW.fmt (300 + 3600)) ∧
    (check_for_conflicts envW storeConflictW (some "100") (some "200") ["yes", "300"]).hadConflict
      = true ∧
    (check_for_conflicts envW storeConflictW (some "100") (some "200") ["yes", "300"]).prompts
      = 2 :=
  check_reschedule_new_interval envW storeConflictW (some "100") (some "200") ["yes", "300"]
    100 200 300 [rawEvW] rfl rfl rfl rfl (by decide) rfl

/-- C3: with a non-empty overlap list, a non-affirmative decision reply
    keeps the original interval with hadConflict = true after one
    listen() call; an affirmative reply whose replacement time fails to
    parse keeps the original interval with hadConflict = true after two
    listen() calls (single attempt, no re-prompt). -/
theorem check_keep_original_on_decline_or_parse_failure (env : Env) (store : Store)
    (sd ed : Option String) (replies : List String) (s0 e0 : Int) (evs : List RawEvent)
    (hs : sd.bind env.parse = some s0) (he : ed.bind env.parse = some e0)
    (hstore : store (ensureOrdered s0 e0).1 (ensureOrdered s0 e0).2 = Except.ok evs)
    (hne : evs.isEmpty = false) :
    ((strContains (strLower (replies.getD 0 "")) "reschedule"
        || strContains (strLower (replies.getD 0 "")) "change"
        || strContains (strLower (replies.getD 0 "")) "yes") = false →
      (check_for_conflicts env store sd ed replies).startOut = sd ∧
      (check_for_conflicts env store sd ed replies).endOut = ed ∧
      (check_for_conflicts env store sd ed replies).hadConflict = true ∧
      (check_for_conflicts env store sd ed replies).prompts = 1) ∧
    ((strContains (strLower (replies.getD 0 "")) "reschedule"
        || strContains (strLower (replies.getD 0 "")) "change"
        || strContains (strLower (replies.getD 0 "")) "yes") = true →
      env.parseDefault (replies.getD 1 "") s0 = none →
      (check_for_conflicts env store sd ed replies).startOut = sd ∧
      (check_for_conflicts env store sd ed replies).endOut = ed ∧
      (check_for_conflicts env store sd ed replies).hadConflict = true ∧
      (check_for_conflicts env store sd ed replies).prompts = 2) := by
  constructor
  · intro hneg
    simp at hneg
    simp [check_for_conflicts, hs, he, hstore, hne, hneg]
  · intro haff hpf
    simp at haff hpf
    simp [check_for_conflicts, hs, he, hstore, hne, haff, hpf]

/-- Witness for check_keep_original_on_decline_or_parse_failure: the
    decline case with reply no, and the parse-failure case with replies
    yes then an unparseable time. -/
theorem check_keep_original_on_decline_or_parse_failure_w :
    ((check_for_conflicts envW storeConflictW (some "100") (some "200") ["no"]).startOut
        = some "100" ∧
      (check_for_conflicts envW storeConflictW (some "100") (some "200") ["no"]).endOut
        = some "200" ∧
      (check_for_conflicts envW storeConflictW (some "100") (some "200") ["no"]).hadConflict
        = true ∧
      (check_for_conflicts envW storeConflictW (some "100") (some "200") ["no"]).prompts = 1) ∧
    ((check_for_conflicts envW storeConflictW (some "100") (some "200") ["yes", "later"]).startOut
        = some "100" ∧
      (check_for_conflicts envW storeConflictW (some "100") (some "200") ["yes", "later"]).endOut
        = some "200" ∧
      (check_for_conflicts envW storeConflictW (some "100") (some "200") ["yes", "later"]).hadConflict
        = true ∧
      (check_for_conflicts envW storeConflictW (some "100") (some "200") ["yes", "later"]).prompts
        = 2) :=
  ⟨(check_keep_original_on_decline_or_parse_failure envW storeConflictW (some "100") (some "200")
      ["no"] 100 200 [rawEvW] rfl rfl rfl rfl).1 (by decide),
    (check_keep_original_on_decline_or_parse_failure envW storeConflictW (some "100") (some "200")
      ["yes", "later"] 100 200 [rawEvW] rfl rfl rfl rfl).2 (by decide) rfl⟩

/-- C4 counterexample: a draft whose start and end are both non-empty but
    unordered (start parses to 100, end to 50) is passed onward by
    fill_missing_fields unchanged after the conflict check, so the pair
    handed to the committer does not satisfy end > start. -/
theorem fill_ordering_invariant_cex :
    fill_missing_fields envW storeEmptyW 0
      { title := some "T", start := some "100", endT := some "50", location := some "L" } [] =
      FillOut.done
        { title := some "T", start := some "100", endT := some "50", location := some "L" } [] 0
    ∧ envW.parse "100" = some 100 ∧ envW.parse "50" = some 50 ∧ ¬ ((100 : Int) < 50) := by
  refine ⟨by decide, by decide, by decide, by decide⟩

/-- C4 amended: the end > start guard is enforced only on the interval
    used for the store list query (end forced to start + 1 hour when
    end <= start); the pair written back to the draft is the original,
    possibly unordered, pair in every branch in which no reschedule
    occurs — no conflict, store error, decline, and failed
    replacement-time parse alike — and only a successful reschedule
    replaces it, with the pair new_start, new_start + 1 hour. -/
theorem query_interval_ordered (env : Env) (store : Store)
    (sd ed : Option String) (replies : List String) (s0 e0 : Int) (q : Int × Int)
    (hs : sd.bind env.parse = some s0) (he : ed.bind env.parse = some e0)
    (hq : (check_for_conflicts env store sd ed replies).queried = some q) :
    q = ensureOrdered s0 e0 ∧ q.1 < q.2 ∧
    (((check_for_conflicts env store sd ed replies).startOut = sd ∧
        (check_for_conflicts env store sd ed replies).endOut = ed) ∨
      (∃ ns, env.parseDefault (replies.getD 1 "") s0 = some ns ∧
        (check_for_conflicts env store sd ed replies).startOut = some (env.fmt ns) ∧
        (check_for_conflicts env store sd ed replies).endOut = some (env.fmt (ns + 3600)))) := by
  have horder : (ensureOrdered s0 e0).1 < (ensureOrdered s0 e0).2 := by
    unfold ensureOrdered
    split
    · simp
    · simp
      omega
  have key : (check_for_conflicts env store sd ed replies).queried = some (ensureOrdered s0 e0) ∧
      (((check_for_conflicts env store sd ed replies).startOut = sd ∧
          (check_for_conflicts env store sd ed replies).endOut = ed) ∨
        (∃ ns, env.parseDefault (replies.getD 1 "") s0 = some ns ∧
          (check_for_conflicts env store sd ed replies).startOut = some (env.fmt ns) ∧
          (check_for_conflicts env store sd ed replies).endOut
            = some (env.fmt (ns + 3600)))) := by
    simp only [check_for_conflicts, hs, he]
    cases hst : store (ensureOrdered s0 e0).1 (ensureOrdered s0 e0).2 with
    | error msg => simp
    | ok evs =>
      by_cases hemp : evs.isEmpty = true
      · simp [hemp]
      · simp only [Bool.not_eq_true] at hemp
        simp only [hemp, Bool.false_eq_true, if_false]
        split
        · split
          · simp
          · rename_i ns hns
            exact ⟨rfl, Or.inr ⟨ns, hns, rfl, rfl⟩⟩
        · simp
  rw [key.1] at hq
  have hqe := Option.some.inj hq
  refine ⟨hqe.symm, ?_, key.2⟩
  rw [← hqe]
  exact horder

/-- Witness for query_interval_ordered at a concrete unordered input:
    the query bounds are reordered while the unordered original pair is
    passed onward. -/
theorem query_interval_ordered_w :
    ((100 : Int), (3700 : Int)) = ensureOrdered 100 50 ∧
    ((100 : Int), (3700 : Int)).1 < ((100 : Int), (3700 : Int)).2 ∧
    (((check_for_conflicts envW storeEmptyW (some "100") (some "50") []).startOut = some "100" ∧
        (check_for_conflicts envW storeEmptyW (some "100") (some "50") []).endOut = some "50") ∨
      (∃ ns, envW.parseDefault (([] : List String).getD 1 "") 100 = some ns ∧
        (check_for_conflicts envW storeEmptyW (some "100") (some "50") []).startOut
          = some (envW.fmt ns) ∧
        (check_for_conflicts envW storeEmptyW (some "100") (some "50") []).endOut
          = some (envW.fmt (ns + 3600)))) :=
  query_interval_ordered envW storeEmptyW (some "100") (some "50") [] 100 50
    (100, 3700) rfl rfl (by decide)

theorem fillLoc_cancelAt (env : Env) (store : Store) (ev : Draft) (replies : List String)
    (asked : List String) (i : Nat) (hi : i < (remLoc ev).length)
    (hc : cancelWord (replies.getD i "") = true) :
    fillLoc env store ev replies asked = FillOut.cancelled (asked ++ (remLoc ev).take (i + 1)) := by
  cases h : falsy ev.location with
  | false => simp [remLoc, h] at hi
  | true =>
    have hi0 : i = 0 := by
      simp [remLoc, h] at hi
      omega
    subst hi0
    simp [fillLoc, h, remLoc, hc, -List.getD_eq_getElem?_getD]

theorem fillEnd_cancelAt (env : Env) (store : Store) (now : Int) (ev : Draft)
    (replies : List String) (asked : List String) (i : Nat)
    (hi : i < (remEnd ev).length)
    (hc : cancelWord (replies.getD i "") = true)
    (hp : ∀ j, j < i → cancelWord (replies.getD j "") = false) :
    fillEnd env store now ev replies asked
      = FillOut.cancelled (asked ++ (remEnd ev).take (i + 1)) := by
  cases h : falsy ev.endT with
  | false =>
    have hrem : remEnd ev = remLoc ev := by simp [remEnd, h]
    rw [hrem] at hi ⊢
    have hstep : fillEnd env store now ev replies asked = fillLoc env store ev replies asked := by
      simp [fillEnd, h]
    rw [hstep]
    exact fillLoc_cancelAt env store ev replies asked i hi hc
  | true =>
    have hrem : remEnd ev = endQ :: remLoc ev := by simp [remEnd, h]
    cases i with
    | zero =>
      rw [hrem]
      simp [fillEnd, h, hc, -List.getD_eq_getElem?_getD]
    | succ k =>
      have h0 : cancelWord (replies.getD 0 "") = false := hp 0 (Nat.succ_pos k)
      have hk : cancelWord (replies.tail.getD k "") = true := by
        rw [getD_tail]; exact hc
      have hik : k < (remLoc ev).length := by
        rw [hrem] at hi
        simpa using Nat.lt_of_succ_lt_succ hi
      have hstep : fillEnd env store now ev replies asked
          = fillLoc env store
              { ev with endT := (parse_natural_time env (replies.getD 0 "") now).value }
              replies.tail (asked ++ [endQ]) := by
        simp [fillEnd, h, h0, -List.getD_eq_getElem?_getD]
      rw [hrem, hstep,
        fillLoc_cancelAt env store
          { ev with endT := (parse_natural_time env (replies.getD 0 "") now).value }
          replies.tail (asked ++ [endQ]) k hik hk]
      simp [remLoc]

theorem fillStart_cancelAt (env : Env) (store : Store) (now : Int) (ev : Draft)
    (replies : List String) (asked : List String) (i : Nat)
    (hi : i < (remStart ev).length)
    (hc : cancelWord (replies.getD i "") = true)
    (hp : ∀ j, j < i → cancelWord (replies.getD j "") = false) :
    fillStart env store now ev replies asked
      = FillOut.cancelled (asked ++ (remStart ev).take (i + 1)) := by
  cases h : falsy ev.start with
  | false =>
    have hrem : remStart ev = remEnd ev := by simp [remStart, h]
    rw [hrem] at hi ⊢
    have hstep : fillStart env store now ev replies asked
        = fillEnd env store now ev replies asked := by
      simp [fillStart, h]
    rw [hstep]
    exact fillEnd_cancelAt env store now ev replies asked i hi hc hp
  | true =>
    have hrem : remStart ev = startQ :: remEnd ev := by simp [remStart, h]
    cases i with
    | zero =>
      rw [hrem]
      simp [fillStart, h, hc, -List.getD_eq_getElem?_getD]
    | succ k =>
      have h0 : cancelWord (replies.getD 0 "") = false := hp 0 (Nat.succ_pos k)
      have hk : cancelWord (replies.tail.getD k "") = true := by
        rw [getD_tail]; exact hc
      have hpk : ∀ j, j < k → cancelWord (replies.tail.getD j "") = false := by
        intro j hj
        rw [getD_tail]
        exact hp (j + 1) (by omega)
      have hik : k < (remEnd { ev with start := (parse_natural_time env (replies.getD 0 "") now).value }).length := by
        rw [hrem] at hi
        have hik0 : k < (remEnd ev).length := by simpa using Nat.lt_of_succ_lt_succ hi
        simpa [remEnd, remLoc] using hik0
      have hstep : fillStart env store now ev replies asked
          = fillEnd env store now
              { ev with start := (parse_natural_time env (replies.getD 0 "") now).value }
              replies.tail (asked ++ [startQ]) := by
        simp [fillStart, h, h0, -List.getD_eq_getElem?_getD]
      rw [hrem, hstep,
        fillEnd_cancelAt env store now
          { ev with start := (parse_natural_time env (replies.getD 0 "") now).value }
          replies.tail (asked ++ [startQ]) k hik hk hpk]
      simp [remEnd, remLoc]

theorem fillTitle_cancelAt (env : Env) (store : Store) (now : Int) (ev : Draft)
    (replies : List String) (asked : List String) (i : Nat)
    (hi : i < (missingQs ev).length)
    (hc : cancelWord (replies.getD i "") = true)
    (hp : ∀ j, j < i → cancelWord (replies.getD j "") = false) :
    fillTitle env store now ev replies asked
      = FillOut.cancelled (asked ++ (missingQs ev).take (i + 1)) := by
  cases h : falsy ev.title with
  | false =>
    have hrem : missingQs ev = remStart ev := by simp [missingQs, h]
    rw [hrem] at hi ⊢
    have hstep : fillTitle env store now ev replies asked
        = fillStart env store now ev replies asked := by
      simp [fillTitle, h]
    rw [hstep]
    exact fillStart_cancelAt env store now ev replies asked i hi hc hp
  | true =>
    have hrem : missingQs ev = titleQ :: remStart ev := by simp [missingQs, h]
    cases i with
    | zero =>
      rw [hrem]
      simp [fillTitle, h, hc, -List.getD_eq_getElem?_getD]
    | succ k =>
      have h0 : cancelWord (replies.getD 0 "") = false := hp 0 (Nat.succ_pos k)
      have hk : cancelWord (replies.tail.getD k "") = true := by
        rw [getD_tail]; exact hc
      have hpk : ∀ j, j < k → cancelWord (replies.tail.getD j "") = false := by
        intro j hj
        rw [getD_tail]
        exact hp (j + 1) (by omega)
      have hik : k < (remStart { ev with title := some (replies.getD 0 "") }).length := by
        rw [hrem] at hi
        have hik0 : k < (remStart ev).length := by simpa using Nat.lt_of_succ_lt_succ hi
        simpa [remStart, remEnd, remLoc] using hik0
      have hstep : fillTitle env store now ev replies asked
          = fillStart env store now { ev with title := some (replies.getD 0 "") }
              replies.tail (asked ++ [titleQ]) := by
        simp [fillTitle, h, h0, -List.getD_eq_getElem?_getD]
      rw [hrem, hstep,
        fillStart_cancelAt env store now { ev with title := some (replies.getD 0 "") }
          replies.tail (asked ++ [titleQ]) k hik hk hpk]
      simp [remStart, remEnd, remLoc]

/-- C6: if, at the i-th question fill_missing_fields asks (fields taken
    in source order title, start, end, location, skipping non-falsy
    ones), the reply is a cancellation word and no earlier reply was, the
    whole dialogue is cancelled at that point: the draft is discarded,
    exactly the first i+1 questions were asked, and the result does not
    depend on the store, so no conflict check or negotiation takes
    place.  In particular cancel at the title prompt means the start, end
    and location prompts are never issued. -/
theorem cancel_aborts_dialogue (env : Env) (store : Store) (now : Int) (ev : Draft)
    (replies : List String) (i : Nat)
    (hi : i < (missingQs ev).length)
    (hc : cancelWord (replies.getD i "") = true)
    (hp : ∀ j, j < i → cancelWord (replies.getD j "") = false) :
    fill_missing_fields env store now ev replies
      = FillOut.cancelled ((missingQs ev).take (i + 1)) := by
  have h := fillTitle_cancelAt env store now ev replies [] i hi hc hp
  simpa [fill_missing_fields] using h

/-- Witness for cancel_aborts_dialogue: all four fields missing, first
    reply ordinary, second reply cancel: only the title and start
    questions were asked and the dialogue is cancelled. -/
theorem cancel_aborts_dialogue_w :
    fill_missing_fields envW storeEmptyW 0
      { title := none, start := none, endT := none, location := none } ["ok", "cancel"]
      = FillOut.cancelled
          ((missingQs { title := none, start := none, endT := none, location := none }).take 2) :=
  cancel_aborts_dialogue envW storeEmptyW 0
    { title := none, start := none, endT := none, location := none } ["ok", "cancel"] 1
    (by decide) (by decide)
    (by
      intro j hj
      have hj0 : j = 0 := by omega
      subst hj0
      decide)

/-- C8 counterexample: on empty input text, parse_natural_time returns
    None rather than the reference timestamp, so its output is not always
    a fully-qualified timestamp. -/
theorem parse_natural_time_empty_cex :
    (parse_natural_time envW "" 0).value = none ∧
    (parse_natural_time envW "" 0).value ≠ some (envW.fmt 0) := by
  refine ⟨rfl, by decide⟩

/-- C8 amended: for every non-empty input text, parse_natural_time never
    fails the caller: on unparseable input it returns the formatted
    reference timestamp itself as the fallback, and on parseable input
    the formatted parse result, always a some. -/
theorem parse_natural_time_nonempty_total (env : Env) (text : String) (base : Int)
    (hne : text ≠ "") :
    (env.parseDefault text base = none →
      (parse_natural_time env text base).value = some (env.fmt base)) ∧
    (∀ dt, env.parseDefault text base = some dt →
      (parse_natural_time env text base).value = some (env.fmt dt)) := by
  constructor
  · intro h
    simp [parse_natural_time, hne, h]
  · intro dt h
    simp [parse_natural_time, hne, h]

/-- Witness for parse_natural_time_nonempty_total: unparseable non-empty
    text falls back to the formatted reference. -/
theorem parse_natural_time_nonempty_total_w :
    (parse_natural_time envW "zz" 7).value = some (envW.fmt 7) :=
  (parse_natural_time_nonempty_total envW "zz" 7 (by decide)).1 rfl

/-- C9 counterexample: with an insert that succeeds and returns id123,
    add_event_to_calendar still returns None — the store-assigned
    identifier is never handed back to the caller. -/
theorem add_event_returns_no_id_cex :
    (add_event_to_calendar envW storeEmptyW insOkW none (some "T") (some "100") (some "200")
      "L" []).value = none ∧
    insOkW { summary := "T", location := "L", startDT := some "100", endDT := some "200",
             tz := "UTC" } = Except.ok "id123" ∧
    (add_event_to_calendar envW storeEmptyW insOkW none (some "T") (some "100") (some "200")
      "L" []).inserted =
      some { summary := "T", location := "L", startDT := some "100", endDT := some "200",
             tz := "UTC" } := by
  refine ⟨by decide, rfl, by decide⟩

/-- C9 amended: with all required fields present, add_event_to_calendar
    makes exactly one insert attempt and returns None (never the
    store-assigned identifier); if the insert fails it surfaces the
    failure with the underlying cause (spoken problem notice, printed
    cause) and does not retry; if it succeeds it speaks a confirmation. -/
theorem add_event_single_attempt_no_id (env : Env) (cstore : Store) (ins : InsertFn)
    (tzN : Option String) (t s e loc : String) (replies : List String) (c idv : String) :
    (add_event_to_calendar env cstore ins tzN (some t) (some s) (some e) loc replies).attempts
      = 1 ∧
    (add_event_to_calendar env cstore ins tzN (some t) (some s) (some e) loc replies).value
      = none ∧
    ((∀ x, ins x = Except.error c) →
      (add_event_to_calendar env cstore ins tzN (some t) (some s) (some e) loc replies).printed
        = (check_for_conflicts env cstore (some s) (some e) replies).printed
          ++ ["⚠️ Failed to add event: " ++ c] ∧
      (add_event_to_calendar env cstore ins tzN (some t) (some s) (some e) loc replies).spoken
        = (check_for_conflicts env cstore (some s) (some e) replies).spoken
          ++ ["There was a problem adding your event."]) ∧
    ((∀ x, ins x = Except.ok idv) →
      (add_event_to_calendar env cstore ins tzN (some t) (some s) (some e) loc replies).spoken
        = (check_for_conflicts env cstore (some s) (some e) replies).spoken
          ++ ["Your event \x27" ++ t ++ "\x27 has been added to the calendar."]) := by
  refine ⟨?_, ?_, fun hf => ?_, fun hok => ?_⟩
  · simp only [add_event_to_calendar]
    rw [if_neg (by simp)]
    split <;> rfl
  · simp only [add_event_to_calendar]
    rw [if_neg (by simp)]
    split <;> rfl
  · constructor <;> simp [add_event_to_calendar, hf]
  · simp [add_event_to_calendar, hok]

/-- Witness for add_event_single_attempt_no_id: failing insert, one
    attempt, cause surfaced in the printed diagnostics. -/
theorem add_event_single_attempt_no_id_w :
    (add_event_to_calendar envW storeEmptyW insErrW none (some "T") (some "100") (some "200")
      "L" []).attempts = 1 ∧
    (add_event_to_calendar envW storeEmptyW insErrW none (some "T") (some "100") (some "200")
      "L" []).printed
      = (check_for_conflicts envW storeEmptyW (some "100") (some "200") []).printed
        ++ ["⚠️ Failed to add event: " ++ "boom"] :=
  ⟨(add_event_single_attempt_no_id envW storeEmptyW insErrW none "T" "100" "200" "L" []
      "boom" "id123").1,
    ((add_event_single_attempt_no_id envW storeEmptyW insErrW none "T" "100" "200" "L" []
      "boom" "id123").2.2.1 (fun _ => rfl)).1⟩

/-- C10: with non-None title, start and end, add_event_to_calendar runs
    check_for_conflicts again on the supplied interval before inserting,
    and the body inserted into the store carries that second negotiation
    result, not necessarily the supplied interval; concretely, with an
    overlapping booking and replies yes then 300, the supplied interval
    100-200 is inserted as ts300-ts3900. -/
theorem add_event_inserts_renegotiated_interval (env : Env) (cstore : Store) (ins : InsertFn)
    (tzN : Option String) (t s e loc : String) (replies : List String) :
    (add_event_to_calendar env cstore ins tzN (some t) (some s) (some e) loc replies).inserted =
      some { summary := t, location := loc,
             startDT := (check_for_conflicts env cstore (some s) (some e) replies).startOut,
             endDT := (check_for_conflicts env cstore (some s) (some e) replies).endOut,
             tz := tzN.getD "UTC" } ∧
    (add_event_to_calendar envW storeConflictW insOkW none (some "T") (some "100") (some "200")
      "L" ["yes", "300"]).inserted =
      some { summary := "T", location := "L", startDT := some "ts300", endDT := some "ts3900",
             tz := "UTC" } := by
  constructor
  · simp only [add_event_to_calendar]
    rw [if_neg (by simp)]
    split <;> rfl
  · decide
